import Mathlib

/-!
# Verification of the pywificontrol mode controller and Wi-Fi monitor

A shallow embedding of `wificontrol/wificontrol.py` (the `WiFiControl`
mode controller) and `wificontrol/wifimonitor.py` (the `WiFiMonitor`
event normalizer and callback dispatcher), with theorems settling the
spec claims about them.

The three service facades (`WpaSupplicant`, `HostAP`, `WiFi`) are not
part of the two source files; their observable behaviour is modelled
from the spec (section "External Interfaces"): each exposes
`started()/start()/stop()/restart()`, the start/stop/restart calls are
synchronous and, per the spec, have no interesting failure behaviour of
their own.  Facade calls are recorded in an explicit trace so theorems
can speak about which underlying operations a controller method
performed.
-/

namespace PyWifiControl

/-- One call made by the mode controller to an underlying service facade.
Modelled from the spec: the facades expose `started/start/stop/restart`
(client and access-point services), plus radio block/unblock and DNS
restart on the interface facade. -/
inductive FacadeCall where
  | wpaStart
  | wpaStop
  | wpaRestart
  | wpaStartConnecting
  | hotspotStart
  | hotspotStop
  | hotspotRestart
  | wifiBlock
  | wifiUnblock
  | dnsRestart
  deriving DecidableEq, Repr

/-- Observable started/blocked state of the three facades.
Modelled from the spec: `started()` is a boolean query on the client
(`wpa_supplicant`) and access-point (`hostapd`) services; the interface
facade can block/unblock the radio. -/
structure WState where
  wpaStarted : Bool
  hotspotStarted : Bool
  wifiBlocked : Bool
  deriving DecidableEq, Repr

/-- Modelled from the spec: `stop()` on the client facade leaves the
client service not started. -/
def wpaSupplicantStop (s : WState) : WState × List FacadeCall :=
  ({ s with wpaStarted := false }, [FacadeCall.wpaStop])

/-- Modelled from the spec: `start()` on the client facade leaves the
client service started. -/
def wpaSupplicantStart (s : WState) : WState × List FacadeCall :=
  ({ s with wpaStarted := true }, [FacadeCall.wpaStart])

/-- Modelled from the spec: `restart()` on the client facade leaves the
client service started. -/
def wpaSupplicantRestart (s : WState) : WState × List FacadeCall :=
  ({ s with wpaStarted := true }, [FacadeCall.wpaRestart])

/-- Modelled from the spec: `stop()` on the access-point facade leaves
the access-point service not started. -/
def hotspotStop (s : WState) : WState × List FacadeCall :=
  ({ s with hotspotStarted := false }, [FacadeCall.hotspotStop])

/-- Modelled from the spec: `start()` on the access-point facade leaves
the access-point service started. -/
def hotspotStart (s : WState) : WState × List FacadeCall :=
  ({ s with hotspotStarted := true }, [FacadeCall.hotspotStart])

/-- Modelled from the spec: `restart()` on the access-point facade
leaves the access-point service started (restart applies configuration
changes). -/
def hotspotRestart (s : WState) : WState × List FacadeCall :=
  ({ s with hotspotStarted := true }, [FacadeCall.hotspotRestart])

/-- Modelled from the spec: `block()` on the interface facade blocks the
radio. -/
def wifiBlock (s : WState) : WState × List FacadeCall :=
  ({ s with wifiBlocked := true }, [FacadeCall.wifiBlock])

/-- Modelled from the spec: `unblock()` on the interface facade unblocks
the radio. -/
def wifiUnblock (s : WState) : WState × List FacadeCall :=
  ({ s with wifiBlocked := false }, [FacadeCall.wifiUnblock])

namespace WiFiControl

/-- `WiFiControl.CLIENT_STATE` in wificontrol.py. -/
def CLIENT_STATE : String := "wpa_supplicant"

/-- `WiFiControl.HOTSPOT_STATE` in wificontrol.py. -/
def HOTSPOT_STATE : String := "hostapd"

/-- `WiFiControl.OFF_STATE` in wificontrol.py. -/
def OFF_STATE : String := "wifi_off"

/-- `WiFiControl.get_state` in wificontrol.py: starts from `OFF_STATE`,
returns `CLIENT_STATE` if the client facade reports started, else
`HOTSPOT_STATE` if the access-point facade reports started. -/
def get_state (s : WState) : String :=
  if s.wpaStarted then CLIENT_STATE
  else if s.hotspotStarted then HOTSPOT_STATE
  else OFF_STATE

/-- `WiFiControl.start_hotspot_mode` in wificontrol.py: stop the client
facade if started; restart the access-point facade if started, else
start it; then `return True`. -/
def start_hotspot_mode (s : WState) : WState × List FacadeCall × Bool :=
  let (s1, t1) := if s.wpaStarted then wpaSupplicantStop s else (s, [])
  let (s2, t2) := if s1.hotspotStarted then hotspotRestart s1 else hotspotStart s1
  (s2, t1 ++ t2, true)

/-- `WiFiControl.start_client_mode` in wificontrol.py: stop the
access-point facade if started; restart the client facade if started,
else start it; then `return True`. -/
def start_client_mode (s : WState) : WState × List FacadeCall × Bool :=
  let (s1, t1) := if s.hotspotStarted then hotspotStop s else (s, [])
  let (s2, t2) := if s1.wpaStarted then wpaSupplicantRestart s1 else wpaSupplicantStart s1
  (s2, t1 ++ t2, true)

/-- `WiFiControl.turn_off_wifi` in wificontrol.py: unconditionally stop
the access point, stop the client service, block the radio. -/
def turn_off_wifi (s : WState) : WState × List FacadeCall :=
  let (s1, t1) := hotspotStop s
  let (s2, t2) := wpaSupplicantStop s1
  let (s3, t3) := wifiBlock s2
  (s3, t1 ++ t2 ++ t3)

/-- `WiFiControl.revert_on_connect_failure` in wificontrol.py: the
default connect-result handler; on a falsy result it calls
`start_hotspot_mode`, otherwise it does nothing. -/
def revert_on_connect_failure (result : Bool) (s : WState) :
    WState × List FacadeCall :=
  if !result then
    let (s1, t1, _) := start_hotspot_mode s
    (s1, t1)
  else (s, [])

/-- The `ConnectionAttempt` handed to the client facade by
`start_connecting`: target network, the completion callback (acting on
the controller state), its fixed arguments, and the timeout.
The client facade's `start_connecting` itself is external; modelled
from the spec: it records the attempt and arms the timeout. -/
structure ConnectionAttempt where
  network : String
  callback : Bool → WState → WState × List FacadeCall
  args : Option (List String)
  timeout : Nat

/-- `WiFiControl.start_connecting` in wificontrol.py: if no callback is
supplied, install `revert_on_connect_failure` and clear the arguments;
switch to client mode; hand the attempt to the client facade. -/
def start_connecting (s : WState) (network : String)
    (callback : Option (Bool → WState → WState × List FacadeCall))
    (args : Option (List String)) (timeout : Nat) :
    WState × List FacadeCall × ConnectionAttempt :=
  let cb := match callback with
    | none => revert_on_connect_failure
    | some c => c
  let cbArgs := match callback with
    | none => none
    | some _ => args
  let (s1, t1, _) := start_client_mode s
  (s1, t1 ++ [FacadeCall.wpaStartConnecting],
   { network := network, callback := cb, args := cbArgs, timeout := timeout })

/-- Name-related readback values of the facades, as seen by the
verification methods.  Modelled from the spec: `get_host_name` and
`get_device_mac` live on the access-point facade, `get_p2p_name` on the
client facade; `get_device_mac` returns the hardware address as a
string of hex digits as produced by the platform. -/
structure NameState where
  hostName : String
  p2pName : String
  hotspotSsid : String
  deviceMac : String
  deriving DecidableEq, Repr

/-- Python's `s[-6:]`: the last 6 characters of the string (the whole
string when it is shorter). -/
def lastSix (s : String) : String :=
  (s.toList.drop (s.toList.length - 6)).asString

/-- `WiFiControl.verify_hotspot_name` in wificontrol.py: compare
`name + get_device_mac()[-6:]` with the hotspot SSID read back. -/
def verify_hotspot_name (ns : NameState) (name : String) : Bool :=
  let mac_addr := lastSix ns.deviceMac
  name ++ mac_addr == ns.hotspotSsid

/-- `WiFiControl.verify_device_names` in wificontrol.py: `verified`
starts false and becomes true only when the host name, the p2p name and
the hotspot name all read back as expected. -/
def verify_device_names (ns : NameState) (name : String) : Bool :=
  if name == ns.hostName then
    if name == ns.p2pName then
      if verify_hotspot_name ns name then true else false
    else false
  else false

end WiFiControl

namespace WiFiMonitor

/-- `WiFiMonitor.HOTSPOT_STARTING` in wifimonitor.py. -/
def HOTSPOT_STARTING : String := "HOTSPOT STARTING"

/-- `WiFiMonitor.HOTSPOT_STARTED` in wifimonitor.py. -/
def HOTSPOT_STARTED : String := "HOTSPOT STARTED"

/-- `WiFiMonitor.HOTSPOT_STOPPING` in wifimonitor.py. -/
def HOTSPOT_STOPPING : String := "HOTSPOT STOPPING"

/-- `WiFiMonitor.HOTSPOT_STOPPED` in wifimonitor.py. -/
def HOTSPOT_STOPPED : String := "HOTSPOT STOPPED"

/-- `WiFiMonitor.HOTSPOT_FAILED` in wifimonitor.py. -/
def HOTSPOT_FAILED : String := "HOTSPOT FAILED"

/-- `WiFiMonitor.HOTSPOT_STATUS_EVENTS` in wifimonitor.py: the lookup
table from `(ActiveState, SubState)` pairs to normalized hotspot
events; `.get` on the dict returns `none` for an unmapped pair. -/
def HOTSPOT_STATUS_EVENTS : String × String → Option String
  | ("activating", "start") => some HOTSPOT_STARTING
  | ("active", "running") => some HOTSPOT_STARTED
  | ("deactivating", "stop-post") => some HOTSPOT_STOPPING
  | ("deactivating", "stop-sigterm") => some HOTSPOT_STOPPING
  | ("inactive", "dead") => some HOTSPOT_STOPPED
  | ("failed", "failed") => some HOTSPOT_FAILED
  | _ => none

/-- `WiFiMonitor.LEASE_UP` in wifimonitor.py. -/
def LEASE_UP : String := "LEASE UP"

/-- `WiFiMonitor.LEASE_ADDED` in wifimonitor.py. -/
def LEASE_ADDED : String := "LEASE ADDED"

/-- `WiFiMonitor.LEASE_UPDATED` in wifimonitor.py. -/
def LEASE_UPDATED : String := "LEASE UPDATED"

/-- `WiFiMonitor.LEASE_DELETED` in wifimonitor.py. -/
def LEASE_DELETED : String := "LEASE DELETED"

/-- `WiFiMonitor.HOTSPOT_LEASE_EVENTS` in wifimonitor.py: the lookup
table from lease-manager signal names to normalized lease events. -/
def HOTSPOT_LEASE_EVENTS : String → Option String
  | "Up" => some LEASE_UP
  | "DhcpLeaseAdded" => some LEASE_ADDED
  | "DhcpLeaseUpdated" => some LEASE_UPDATED
  | "DhcpLeaseDeleted" => some LEASE_DELETED
  | _ => none

/-- The monitor's dedup state: `self.last_host_event`, `None` at
construction. -/
structure MonState where
  last_host_event : Option String
  deriving DecidableEq, Repr

/-- The `props` argument of `_hostapd_properties_changed`:
`props.get('ActiveState')` and `props.get('SubState')` each yield
`none` when the key is absent. -/
structure HProps where
  activeState : Option String
  subState : Option String
  deriving DecidableEq, Repr

/-- Python truthiness of a `props.get` result: `None` and the empty
string are falsy. -/
def truthy : Option String → Bool
  | none => false
  | some s => s != ""

/-- `WiFiMonitor._hostapd_properties_changed` in wifimonitor.py.
`ssid` stands for `wifi_control.hotspot.get_hotspot_ssid()`, the
payload fetched when an event is dispatched.  Returns the new monitor
state and the `(event, data)` pair passed to `_execute_callbacks`, or
`none` when nothing is dispatched (unmapped pair, falsy field, or
dedup suppression). -/
def hostapd_properties_changed (ssid : String) (m : MonState)
    (p : HProps) : MonState × Option (String × String) :=
  if truthy p.activeState && truthy p.subState then
    match p.activeState, p.subState with
    | some active_state, some sub_state =>
      match HOTSPOT_STATUS_EVENTS (active_state, sub_state) with
      | some event =>
        if some event ≠ m.last_host_event then
          ({ last_host_event := some event }, some (event, ssid))
        else (m, none)
      | none => (m, none)
    | _, _ => (m, none)
  else (m, none)

/-- The normalized event a hostapd signal resolves to: the table lookup
on the `(ActiveState, SubState)` pair, provided both fields are truthy;
`none` otherwise. -/
def resolveEvent (p : HProps) : Option String :=
  if truthy p.activeState && truthy p.subState then
    match p.activeState, p.subState with
    | some active_state, some sub_state =>
        HOTSPOT_STATUS_EVENTS (active_state, sub_state)
    | _, _ => none
  else none

/-- The monitor state after a sequence of hostapd property-change
signals has been processed in delivery order. -/
def hostapd_process_all (ssid : String) (m : MonState)
    (ps : List HProps) : MonState :=
  ps.foldl (fun acc p => (hostapd_properties_changed ssid acc p).1) m

/-- The payload dict built by `_dhcp_lease_changed`: `{name, ip, mac}`
when the signal carried four positional fields, empty otherwise. -/
structure LeaseData where
  name : String
  ip : String
  mac : String
  deriving DecidableEq, Repr

/-- `WiFiMonitor._dhcp_lease_changed` in wifimonitor.py.  `w` is the
controller state `get_state` is queried on; `signal` is `args[0]`
(bound at subscription time); `rest` holds the remaining positional
fields, so the Python `args` tuple is `signal :: rest` and
`len(args) == 4` is `rest.length = 3` with `ip = args[1]`,
`mac = args[2]`, `name = args[3]`.  Returns the (unchanged) monitor
state and the dispatched `(event, data)` pair, if any. -/
def dhcp_lease_changed (w : WState) (m : MonState) (signal : String)
    (rest : List String) : MonState × Option (String × Option LeaseData) :=
  if WiFiControl.get_state w ≠ WiFiControl.HOTSPOT_STATE then (m, none)
  else
    match HOTSPOT_LEASE_EVENTS signal with
    | some event =>
      let data : Option LeaseData :=
        match rest with
        | [ip, mac, name] => some { name := name, ip := ip, mac := mac }
        | _ => none
      (m, some (event, data))
    | none => (m, none)

/-- The callback registry `self.callbacks`: a dict from event name to
the ordered list of `(callback, args)` pairs.  Callbacks are identified
by a numeric id; the registry is an association list with unique keys,
mirroring dict semantics. -/
def Registry : Type := List (String × List (Nat × List String))

/-- `self.callbacks.get(msg)`: dict lookup. -/
def regGet (r : Registry) (msg : String) : Option (List (Nat × List String)) :=
  match r with
  | [] => none
  | (k, v) :: t => if k == msg then some v else regGet t msg

/-- `WiFiMonitor.register_callback` in wifimonitor.py: create the list
on first use, then append `(callback, args)`. -/
def register_callback (r : Registry) (msg : String) (cb : Nat)
    (args : List String) : Registry :=
  match r with
  | [] => [(msg, [(cb, args)])]
  | (k, v) :: t =>
    if k == msg then (k, v ++ [(cb, args)]) :: t
    else (k, v) :: register_callback t msg cb args

/-- The invocation record of one callback call: the callback identity
and the positional arguments it receives. -/
structure Invocation where
  cb : Nat
  passedArgs : List String
  deriving DecidableEq, Repr

/-- The loop body of `_execute_callbacks`: each `(callback, args)` pair
is invoked as `callback(event, data)` — the stored fixed `args` are
unpacked but not passed. -/
def runCallbacks (event data : String) :
    List (Nat × List String) → List Invocation
  | [] => []
  | (cb, _args) :: rest =>
      { cb := cb, passedArgs := [event, data] } :: runCallbacks event data rest

/-- `WiFiMonitor._execute_callbacks` in wifimonitor.py: look up the
list for `event` (a missing key or an empty list is falsy and yields
no invocation), then invoke each registered callback in order. -/
def execute_callbacks (r : Registry) (event data : String) :
    List Invocation :=
  match regGet r event with
  | none => []
  | some callbacks =>
    if callbacks.isEmpty then [] else runCallbacks event data callbacks

/-- The dispatch behaviour the spec describes, for comparison with
`execute_callbacks`: each `(callback, fixedArgs)` pair is invoked with
`(event, payload)` plus the fixed arguments. -/
def execute_callbacks_spec (r : Registry) (event data : String) :
    List Invocation :=
  match regGet r event with
  | none => []
  | some callbacks =>
    callbacks.map fun p => { cb := p.1, passedArgs := [event, data] ++ p.2 }

/-- The loop body of `_execute_callbacks` with failing callbacks: the
`fails` oracle says which callbacks raise.  Every pair in the list is
still invoked — a raise is caught by the `try/except` around the call —
and each failing callback's identity is logged.  Returns the
invocations made and the logged identities, in order. -/
def runCallbacksExc (fails : Nat → Bool) (event data : String) :
    List (Nat × List String) → List Invocation × List Nat
  | [] => ([], [])
  | (cb, _args) :: rest =>
      let (invs, logs) := runCallbacksExc fails event data rest
      if fails cb then
        ({ cb := cb, passedArgs := [event, data] } :: invs, cb :: logs)
      else
        ({ cb := cb, passedArgs := [event, data] } :: invs, logs)

/-- `WiFiMonitor._execute_callbacks` with the exception behaviour made
explicit: the function is total (no exception escapes the dispatcher)
and returns the invocations made plus the logged callback identities. -/
def execute_callbacks_exc (fails : Nat → Bool) (r : Registry)
    (event data : String) : List Invocation × List Nat :=
  match regGet r event with
  | none => ([], [])
  | some callbacks =>
    if callbacks.isEmpty then ([], [])
    else runCallbacksExc fails event data callbacks

end WiFiMonitor

/-! ## Helper lemmas -/

/-- `start_client_mode` always ends with the client facade started and
the access point stopped. -/
theorem start_client_mode_fst (s : WState) :
    (WiFiControl.start_client_mode s).1 =
      { s with wpaStarted := true, hotspotStarted := false } := by
  obtain ⟨w, h, b⟩ := s
  cases w <;> cases h <;> rfl

/-- `start_hotspot_mode` always ends with the access point started and
the client facade stopped. -/
theorem start_hotspot_mode_fst (s : WState) :
    (WiFiControl.start_hotspot_mode s).1 =
      { s with wpaStarted := false, hotspotStarted := true } := by
  obtain ⟨w, h, b⟩ := s
  cases w <;> cases h <;> rfl

/-- A signal in which either field is missing or empty resolves to no
event, and the handler dispatches nothing and leaves the state alone;
likewise for an unmapped `(ActiveState, SubState)` pair. -/
theorem hostapd_step_of_resolve_none (ssid : String)
    (m : WiFiMonitor.MonState) (p : WiFiMonitor.HProps)
    (hE : WiFiMonitor.resolveEvent p = none) :
    WiFiMonitor.hostapd_properties_changed ssid m p = (m, none) := by
  obtain ⟨a, su⟩ := p
  cases a with
  | none => rfl
  | some av =>
    cases su with
    | none => simp [WiFiMonitor.hostapd_properties_changed, WiFiMonitor.truthy]
    | some sv =>
      simp only [WiFiMonitor.resolveEvent] at hE
      simp only [WiFiMonitor.hostapd_properties_changed]
      by_cases h : (WiFiMonitor.truthy (some av) &&
          WiFiMonitor.truthy (some sv)) = true
      · rw [if_pos h] at hE
        rw [if_pos h, hE]
      · rw [if_neg h]

/-- A signal resolving to event `e` updates `last_host_event` to `e`
and dispatches `(e, ssid)` when `e` differs from the previous value,
and is suppressed (state and dispatch unchanged) otherwise. -/
theorem hostapd_step_of_resolve_some (ssid : String)
    (m : WiFiMonitor.MonState) (p : WiFiMonitor.HProps) (e : String)
    (hE : WiFiMonitor.resolveEvent p = some e) :
    WiFiMonitor.hostapd_properties_changed ssid m p =
      if some e ≠ m.last_host_event then
        ({ last_host_event := some e }, some (e, ssid))
      else (m, none) := by
  obtain ⟨a, su⟩ := p
  cases a with
  | none => exact absurd hE (by simp [WiFiMonitor.resolveEvent, WiFiMonitor.truthy])
  | some av =>
    cases su with
    | none => exact absurd hE (by simp [WiFiMonitor.resolveEvent, WiFiMonitor.truthy])
    | some sv =>
      simp only [WiFiMonitor.resolveEvent] at hE
      simp only [WiFiMonitor.hostapd_properties_changed]
      by_cases h : (WiFiMonitor.truthy (some av) &&
          WiFiMonitor.truthy (some sv)) = true
      · rw [if_pos h] at hE
        rw [if_pos h, hE]
      · rw [if_neg h] at hE
        exact absurd hE (by simp)

/-- Registering under `msg` appends the pair to the list for `msg`,
creating it on first use. -/
theorem regGet_register_self (r : WiFiMonitor.Registry) (msg : String)
    (cb : Nat) (args : List String) :
    WiFiMonitor.regGet (WiFiMonitor.register_callback r msg cb args) msg =
      some (((WiFiMonitor.regGet r msg).getD []) ++ [(cb, args)]) := by
  induction r with
  | nil => simp [WiFiMonitor.register_callback, WiFiMonitor.regGet]
  | cons kv t ih =>
    obtain ⟨k, v⟩ := kv
    by_cases hk : (k == msg) = true
    · simp [WiFiMonitor.register_callback, WiFiMonitor.regGet, hk]
    · simp only [WiFiMonitor.register_callback, WiFiMonitor.regGet, hk,
        if_neg, Bool.false_eq_true, ite_false]
      exact ih

/-- The loop body distributes over list append. -/
theorem runCallbacks_append (event data : String)
    (l1 l2 : List (Nat × List String)) :
    WiFiMonitor.runCallbacks event data (l1 ++ l2) =
      WiFiMonitor.runCallbacks event data l1 ++
        WiFiMonitor.runCallbacks event data l2 := by
  induction l1 with
  | nil => rfl
  | cons p t ih =>
    obtain ⟨cb, args⟩ := p
    simp only [List.cons_append, WiFiMonitor.runCallbacks, List.append_eq, ih]

/-- `_execute_callbacks` invokes exactly the callbacks registered for
the event, treating a missing key and an empty list alike. -/
theorem execute_callbacks_eq (r : WiFiMonitor.Registry)
    (event data : String) :
    WiFiMonitor.execute_callbacks r event data =
      WiFiMonitor.runCallbacks event data
        ((WiFiMonitor.regGet r event).getD []) := by
  unfold WiFiMonitor.execute_callbacks
  cases hg : WiFiMonitor.regGet r event with
  | none => rfl
  | some l =>
    cases l with
    | nil => rfl
    | cons p t => rfl

/-- The exception-aware loop makes the same invocations as the plain
loop and logs exactly the identities of the failing callbacks. -/
theorem runCallbacksExc_parts (fails : Nat → Bool) (event data : String)
    (l : List (Nat × List String)) :
    (WiFiMonitor.runCallbacksExc fails event data l).1 =
      WiFiMonitor.runCallbacks event data l ∧
    (WiFiMonitor.runCallbacksExc fails event data l).2 =
      (l.filter (fun p => fails p.1)).map (fun p => p.1) := by
  induction l with
  | nil => exact ⟨rfl, rfl⟩
  | cons p t ih =>
    obtain ⟨cb, args⟩ := p
    by_cases hf : fails cb = true <;>
      simp [WiFiMonitor.runCallbacksExc, WiFiMonitor.runCallbacks,
        List.filter_cons, hf, ih.1, ih.2]

/-! ## Claims -/

/-- C1: when `start_connecting` is called with no callback, the
controller switches to Client mode (so `get_state` reports Client) and
hands the client facade the default handler
`revert_on_connect_failure`; that handler, invoked with a failure
result, performs exactly `start_hotspot_mode` (after which `get_state`
reports Hotspot), and invoked with a success result it leaves the
state unchanged and makes no facade call. -/
theorem start_connecting_default_fallback (s : WState) (network : String)
    (args : Option (List String)) (timeout : Nat) :
    WiFiControl.get_state
        (WiFiControl.start_connecting s network none args timeout).1 =
      WiFiControl.CLIENT_STATE ∧
    (WiFiControl.start_connecting s network none args timeout).2.2.callback =
      WiFiControl.revert_on_connect_failure ∧
    (∀ s' : WState,
      WiFiControl.revert_on_connect_failure false s' =
        ((WiFiControl.start_hotspot_mode s').1,
         (WiFiControl.start_hotspot_mode s').2.1) ∧
      WiFiControl.get_state
          (WiFiControl.revert_on_connect_failure false s').1 =
        WiFiControl.HOTSPOT_STATE) ∧
    (∀ s' : WState,
      WiFiControl.revert_on_connect_failure true s' = (s', [])) := by
  refine ⟨?_, rfl, ?_, fun s' => rfl⟩
  · have h1 : (WiFiControl.start_connecting s network none args timeout).1 =
        (WiFiControl.start_client_mode s).1 := rfl
    rw [h1, start_client_mode_fst]
    rfl
  · intro s'
    have h2 : (WiFiControl.revert_on_connect_failure false s').1 =
        (WiFiControl.start_hotspot_mode s').1 := rfl
    refine ⟨rfl, ?_⟩
    rw [h2, start_hotspot_mode_fst]
    rfl

/-- C3: a hostapd signal resolving to event `e` leaves
`last_host_event = e` and is dispatched when `e` is an edge; a second
consecutive signal resolving to the same `e` is never dispatched,
while a following signal resolving to a different event is always
dispatched. -/
theorem hostapd_dedup (ssid : String) (m : WiFiMonitor.MonState)
    (p1 p2 : WiFiMonitor.HProps) (e : String)
    (h1 : WiFiMonitor.resolveEvent p1 = some e) :
    (WiFiMonitor.hostapd_properties_changed ssid m p1).1.last_host_event
        = some e ∧
    (m.last_host_event ≠ some e →
      (WiFiMonitor.hostapd_properties_changed ssid m p1).2 =
        some (e, ssid)) ∧
    (WiFiMonitor.resolveEvent p2 = some e →
      (WiFiMonitor.hostapd_properties_changed ssid
        (WiFiMonitor.hostapd_properties_changed ssid m p1).1 p2).2 =
        none) ∧
    (∀ e', WiFiMonitor.resolveEvent p2 = some e' → e' ≠ e →
      (WiFiMonitor.hostapd_properties_changed ssid
        (WiFiMonitor.hostapd_properties_changed ssid m p1).1 p2).2 =
        some (e', ssid)) := by
  have hs1 := hostapd_step_of_resolve_some ssid m p1 e h1
  have hm1 : (WiFiMonitor.hostapd_properties_changed ssid m p1).1.last_host_event
      = some e := by
    by_cases hd : some e ≠ m.last_host_event
    · rw [hs1, if_pos hd]
    · rw [hs1, if_neg hd]
      push_neg at hd
      exact hd.symm
  refine ⟨hm1, ?_, ?_, ?_⟩
  · intro hne
    rw [hs1, if_pos (Ne.symm hne)]
  · intro h2
    have hs2 := hostapd_step_of_resolve_some ssid
      (WiFiMonitor.hostapd_properties_changed ssid m p1).1 p2 e h2
    rw [hs2, if_neg (by simp [hm1])]
  · intro e' h2 hne
    have hs2 := hostapd_step_of_resolve_some ssid
      (WiFiMonitor.hostapd_properties_changed ssid m p1).1 p2 e' h2
    rw [hs2, if_pos (by simp [hm1, hne])]

/-- C3, witness: with no prior hotspot event, the signal
`(active, running)` is dispatched as `HOTSPOT STARTED`; an identical
second signal is suppressed; an `(inactive, dead)` signal after it is
dispatched as `HOTSPOT STOPPED`. -/
theorem hostapd_dedup_witness :
    (WiFiMonitor.hostapd_properties_changed "ap" (WiFiMonitor.MonState.mk none)
        (WiFiMonitor.HProps.mk (some "active") (some "running"))).2 =
      some (WiFiMonitor.HOTSPOT_STARTED, "ap") ∧
    (WiFiMonitor.hostapd_properties_changed "ap"
        (WiFiMonitor.hostapd_properties_changed "ap"
          (WiFiMonitor.MonState.mk none)
          (WiFiMonitor.HProps.mk (some "active") (some "running"))).1
        (WiFiMonitor.HProps.mk (some "active") (some "running"))).2 = none ∧
    (WiFiMonitor.hostapd_properties_changed "ap"
        (WiFiMonitor.hostapd_properties_changed "ap"
          (WiFiMonitor.MonState.mk none)
          (WiFiMonitor.HProps.mk (some "active") (some "running"))).1
        (WiFiMonitor.HProps.mk (some "inactive") (some "dead"))).2 =
      some (WiFiMonitor.HOTSPOT_STOPPED, "ap") :=
  ⟨(hostapd_dedup "ap" (WiFiMonitor.MonState.mk none)
      (WiFiMonitor.HProps.mk (some "active") (some "running"))
      (WiFiMonitor.HProps.mk (some "active") (some "running"))
      WiFiMonitor.HOTSPOT_STARTED (by decide)).2.1 (by decide),
   (hostapd_dedup "ap" (WiFiMonitor.MonState.mk none)
      (WiFiMonitor.HProps.mk (some "active") (some "running"))
      (WiFiMonitor.HProps.mk (some "active") (some "running"))
      WiFiMonitor.HOTSPOT_STARTED (by decide)).2.2.1 (by decide),
   (hostapd_dedup "ap" (WiFiMonitor.MonState.mk none)
      (WiFiMonitor.HProps.mk (some "active") (some "running"))
      (WiFiMonitor.HProps.mk (some "inactive") (some "dead"))
      WiFiMonitor.HOTSPOT_STARTED (by decide)).2.2.2
      WiFiMonitor.HOTSPOT_STOPPED (by decide) (by decide)⟩

/-- C10: while every arriving signal is either unmapped or resolves to
the event already recorded as `last_host_event`, the dedup state is
left exactly as it was, and a further signal resolving to that same
event is still suppressed. -/
theorem hostapd_dedup_state_invariant (ssid : String)
    (m : WiFiMonitor.MonState) (ps : List WiFiMonitor.HProps)
    (p : WiFiMonitor.HProps) (e : String)
    (hlast : m.last_host_event = some e)
    (hps : ∀ q ∈ ps, WiFiMonitor.resolveEvent q = none ∨
      WiFiMonitor.resolveEvent q = some e)
    (hp : WiFiMonitor.resolveEvent p = some e) :
    WiFiMonitor.hostapd_process_all ssid m ps = m ∧
    (WiFiMonitor.hostapd_properties_changed ssid
      (WiFiMonitor.hostapd_process_all ssid m ps) p).2 = none := by
  have key : ∀ q, (WiFiMonitor.resolveEvent q = none ∨
      WiFiMonitor.resolveEvent q = some e) →
      WiFiMonitor.hostapd_properties_changed ssid m q = (m, none) := by
    intro q hq
    rcases hq with hq | hq
    · exact hostapd_step_of_resolve_none ssid m q hq
    · rw [hostapd_step_of_resolve_some ssid m q e hq, if_neg (by simp [hlast])]
  have hall : ∀ ps', (∀ q ∈ ps', WiFiMonitor.resolveEvent q = none ∨
      WiFiMonitor.resolveEvent q = some e) →
      WiFiMonitor.hostapd_process_all ssid m ps' = m := by
    intro ps'
    induction ps' with
    | nil => intro _; rfl
    | cons q qs ih =>
      intro hps'
      have hq := hps' q (List.mem_cons_self q qs)
      have hstate : (WiFiMonitor.hostapd_properties_changed ssid m q).1 = m := by
        rw [key q hq]
      simp only [WiFiMonitor.hostapd_process_all, List.foldl_cons] at ih ⊢
      rw [hstate]
      exact ih (fun r hr => hps' r (List.mem_cons_of_mem q hr))
  refine ⟨hall ps hps, ?_⟩
  rw [hall ps hps, key p (Or.inr hp)]

/-- C10, witness: with `HOTSPOT STARTED` recorded, an unmapped signal
followed by a repeated `(active, running)` signal leaves the dedup
state unchanged, and a further `(active, running)` signal is still
suppressed. -/
theorem hostapd_dedup_state_invariant_witness :
    WiFiMonitor.hostapd_process_all "ap"
        (WiFiMonitor.MonState.mk (some WiFiMonitor.HOTSPOT_STARTED))
        [WiFiMonitor.HProps.mk (some "reloading") (some "reload"),
         WiFiMonitor.HProps.mk (some "active") (some "running")] =
      WiFiMonitor.MonState.mk (some WiFiMonitor.HOTSPOT_STARTED) ∧
    (WiFiMonitor.hostapd_properties_changed "ap"
        (WiFiMonitor.hostapd_process_all "ap"
          (WiFiMonitor.MonState.mk (some WiFiMonitor.HOTSPOT_STARTED))
          [WiFiMonitor.HProps.mk (some "reloading") (some "reload"),
           WiFiMonitor.HProps.mk (some "active") (some "running")])
        (WiFiMonitor.HProps.mk (some "active") (some "running"))).2 =
      none :=
  hostapd_dedup_state_invariant "ap"
    (WiFiMonitor.MonState.mk (some WiFiMonitor.HOTSPOT_STARTED))
    [WiFiMonitor.HProps.mk (some "reloading") (some "reload"),
     WiFiMonitor.HProps.mk (some "active") (some "running")]
    (WiFiMonitor.HProps.mk (some "active") (some "running"))
    WiFiMonitor.HOTSPOT_STARTED (by decide) (by decide) (by decide)

/-- C4: a lease-manager signal delivered while `get_state` is not
`HOTSPOT_STATE` dispatches no callback and changes no monitor state,
whatever the signal name and field count. -/
theorem dhcp_lease_ignored_outside_hotspot (w : WState)
    (m : WiFiMonitor.MonState) (signal : String) (rest : List String)
    (hw : WiFiControl.get_state w ≠ WiFiControl.HOTSPOT_STATE) :
    WiFiMonitor.dhcp_lease_changed w m signal rest = (m, none) := by
  unfold WiFiMonitor.dhcp_lease_changed
  rw [if_pos hw]

/-- C4, witness: in Client mode (client facade started), a valid
four-field `DhcpLeaseAdded` signal is silently discarded. -/
theorem dhcp_lease_ignored_outside_hotspot_witness :
    WiFiMonitor.dhcp_lease_changed (WState.mk true true false)
        (WiFiMonitor.MonState.mk none) "DhcpLeaseAdded"
        ["192.168.0.2", "aa:bb:cc:dd:ee:ff", "peer"] =
      (WiFiMonitor.MonState.mk none, none) :=
  dhcp_lease_ignored_outside_hotspot (WState.mk true true false)
    (WiFiMonitor.MonState.mk none) "DhcpLeaseAdded"
    ["192.168.0.2", "aa:bb:cc:dd:ee:ff", "peer"] (by decide)

/-- C2, counterexample: with both facades reporting started, the
access-point facade reports started, yet `get_state` returns
`CLIENT_STATE`, not `HOTSPOT_STATE` — the code gives the client facade
precedence, not the access point as the claim states. -/
theorem get_state_hotspot_precedence_counterexample :
    (WState.mk true true false).hotspotStarted = true ∧
    WiFiControl.get_state (WState.mk true true false) =
      WiFiControl.CLIENT_STATE ∧
    WiFiControl.CLIENT_STATE ≠ WiFiControl.HOTSPOT_STATE := by
  refine ⟨rfl, rfl, ?_⟩
  decide

/-- C2, amended: `get_state` returns `CLIENT_STATE` iff the client
facade reports started; `HOTSPOT_STATE` iff the client facade is not
started and the access-point facade is; `OFF_STATE` iff neither is
started.  It is a pure query: a function of the facade state alone,
with no effect on it. -/
theorem get_state_characterization (s : WState) :
    (WiFiControl.get_state s = WiFiControl.CLIENT_STATE ↔
      s.wpaStarted = true) ∧
    (WiFiControl.get_state s = WiFiControl.HOTSPOT_STATE ↔
      s.wpaStarted = false ∧ s.hotspotStarted = true) ∧
    (WiFiControl.get_state s = WiFiControl.OFF_STATE ↔
      s.wpaStarted = false ∧ s.hotspotStarted = false) := by
  obtain ⟨w, h, b⟩ := s
  cases w <;> cases h <;> cases b <;> decide

/-- C7: `start_hotspot_mode` stops the client facade exactly when it is
started, then restarts the access-point facade when it is already
started and starts it otherwise, and returns `True` — the success of
the underlying start, which (modelled from the spec) is an infallible
synchronous call. -/
theorem start_hotspot_mode_spec (s : WState) :
    WiFiControl.start_hotspot_mode s =
      ({ s with wpaStarted := false, hotspotStarted := true },
       (if s.wpaStarted then [FacadeCall.wpaStop] else []) ++
         [if s.hotspotStarted then FacadeCall.hotspotRestart
          else FacadeCall.hotspotStart],
       true) := by
  obtain ⟨w, h, b⟩ := s
  cases w <;> cases h <;> rfl

/-- C9: `turn_off_wifi` unconditionally issues stop to the access
point, stop to the client service and block to the radio (in that
order), ends in the Off state, and is idempotent: a second call starts
from the Off state, performs the same (error-free) calls and leaves the
state unchanged. -/
theorem turn_off_wifi_idempotent (s : WState) :
    (WiFiControl.turn_off_wifi s).2 =
      [FacadeCall.hotspotStop, FacadeCall.wpaStop, FacadeCall.wifiBlock] ∧
    WiFiControl.get_state (WiFiControl.turn_off_wifi s).1 =
      WiFiControl.OFF_STATE ∧
    WiFiControl.turn_off_wifi (WiFiControl.turn_off_wifi s).1 =
      ((WiFiControl.turn_off_wifi s).1,
       [FacadeCall.hotspotStop, FacadeCall.wpaStop, FacadeCall.wifiBlock]) := by
  obtain ⟨w, h, b⟩ := s
  cases w <;> cases h <;> cases b <;> exact ⟨rfl, rfl, rfl⟩

/-- C8: `verify_device_names name` returns `true` exactly when the host
name and the peer-discovery (p2p) name read back as `name` and the
hotspot SSID reads back as `name` followed by the last 6 characters of
the device hardware address (the last 6 hex digits, the address being
modelled from the spec as a hex-digit string); any readback mismatch
yields `false`, and the function is total, so it never raises. -/
theorem verify_device_names_iff (ns : WiFiControl.NameState) (name : String) :
    WiFiControl.verify_device_names ns name = true ↔
      name = ns.hostName ∧ name = ns.p2pName ∧
      name ++ WiFiControl.lastSix ns.deviceMac = ns.hotspotSsid := by
  simp only [WiFiControl.verify_device_names, WiFiControl.verify_hotspot_name]
  by_cases h1 : name = ns.hostName <;> by_cases h2 : name = ns.p2pName <;>
    by_cases h3 : name ++ WiFiControl.lastSix ns.deviceMac = ns.hotspotSsid <;>
      simp [h1, h2, h3]

/-- C5, counterexample: a callback registered with the fixed argument
list `["extra"]` is invoked with `(event, payload)` only — the fixed
arguments are unpacked by `_execute_callbacks` but never passed — so
the dispatch differs from the spec's described invocation. -/
theorem execute_callbacks_fixed_args_counterexample :
    WiFiMonitor.execute_callbacks
        [("CLIENT CONNECTED", [(0, ["extra"])])] "CLIENT CONNECTED" "st" =
      [WiFiMonitor.Invocation.mk 0 ["CLIENT CONNECTED", "st"]] ∧
    WiFiMonitor.execute_callbacks_spec
        [("CLIENT CONNECTED", [(0, ["extra"])])] "CLIENT CONNECTED" "st" =
      [WiFiMonitor.Invocation.mk 0 ["CLIENT CONNECTED", "st", "extra"]] ∧
    WiFiMonitor.execute_callbacks
        [("CLIENT CONNECTED", [(0, ["extra"])])] "CLIENT CONNECTED" "st" ≠
      WiFiMonitor.execute_callbacks_spec
        [("CLIENT CONNECTED", [(0, ["extra"])])] "CLIENT CONNECTED" "st" := by
  refine ⟨rfl, rfl, ?_⟩
  decide

/-- C5, amended: `dispatch(event, payload)` is a no-op when nothing is
registered for the event; registering twice under the same event (the
same callback included) appends two entries, and a dispatch then
invokes them after the previously registered callbacks, in
registration order, each receiving exactly `(event, payload)` — the
stored fixed arguments are not passed. -/
theorem register_dispatch_order (r : WiFiMonitor.Registry)
    (event data : String) (cb1 cb2 : Nat) (a1 a2 : List String) :
    (WiFiMonitor.regGet r event = none →
      WiFiMonitor.execute_callbacks r event data = []) ∧
    WiFiMonitor.execute_callbacks
        (WiFiMonitor.register_callback
          (WiFiMonitor.register_callback r event cb1 a1) event cb2 a2)
        event data =
      WiFiMonitor.execute_callbacks r event data ++
        [WiFiMonitor.Invocation.mk cb1 [event, data],
         WiFiMonitor.Invocation.mk cb2 [event, data]] := by
  constructor
  · intro h
    rw [execute_callbacks_eq, h]
    rfl
  · rw [execute_callbacks_eq, execute_callbacks_eq,
      regGet_register_self, regGet_register_self]
    simp only [Option.getD_some, List.append_assoc]
    rw [runCallbacks_append]
    rfl

/-- C5, witness for the amended claim: dispatching with an empty
registry is a no-op, and registering callback 7 twice under
`CLIENT CONNECTED` makes one dispatch invoke it twice, each time with
just the event and the payload. -/
theorem register_dispatch_order_witness :
    WiFiMonitor.execute_callbacks [] "CLIENT CONNECTED" "st" = [] ∧
    WiFiMonitor.execute_callbacks
        (WiFiMonitor.register_callback
          (WiFiMonitor.register_callback [] "CLIENT CONNECTED" 7 ["a"])
          "CLIENT CONNECTED" 7 ["b"]) "CLIENT CONNECTED" "st" =
      WiFiMonitor.execute_callbacks [] "CLIENT CONNECTED" "st" ++
        [WiFiMonitor.Invocation.mk 7 ["CLIENT CONNECTED", "st"],
         WiFiMonitor.Invocation.mk 7 ["CLIENT CONNECTED", "st"]] :=
  ⟨(register_dispatch_order [] "CLIENT CONNECTED" "st" 7 7 ["a"] ["b"]).1 rfl,
   (register_dispatch_order [] "CLIENT CONNECTED" "st" 7 7 ["a"] ["b"]).2⟩

/-- C6: whatever subset of callbacks raises (the `fails` oracle), a
dispatch still makes exactly the invocations of the failure-free run —
so one callback's exception never prevents a later callback — and the
log records precisely the identities of the failing callbacks; the
dispatcher itself is a total function, so no exception escapes to the
signal source. -/
theorem callback_exception_isolation (fails : Nat → Bool)
    (r : WiFiMonitor.Registry) (event data : String) :
    (WiFiMonitor.execute_callbacks_exc fails r event data).1 =
      WiFiMonitor.execute_callbacks r event data ∧
    (WiFiMonitor.execute_callbacks_exc fails r event data).2 =
      ((((WiFiMonitor.regGet r event).getD []).filter
        (fun p => fails p.1)).map (fun p => p.1)) := by
  rw [execute_callbacks_eq]
  unfold WiFiMonitor.execute_callbacks_exc
  cases hg : WiFiMonitor.regGet r event with
  | none => exact ⟨rfl, rfl⟩
  | some l =>
    cases l with
    | nil => exact ⟨rfl, rfl⟩
    | cons p t =>
      simp only [List.isEmpty_cons, ite_false, Option.getD_some,
        Bool.false_eq_true]
      exact runCallbacksExc_parts fails event data (p :: t)

end PyWifiControl
